import Mathlib

/-!
Verification of the multi-object tracking core of `dbot_ros`
(`object_tracker_controller_service_node.cpp`, class `MultiObjectTracker`).

The embedding follows the two member functions visible in the source:

* `MultiObjectTracker::Initialize(initial_states, ros_image, camera_matrix,
  state_is_partial)` — staged (partial) and full-state initialization of the
  particle filter (source lines 262-434);
* `MultiObjectTracker::Filter(ros_image)` — the per-frame update
  (source lines 436-465).

The particle-filter object `filter_` itself (`CoordinateFilter` from the
external `state_filtering` library: `Samples`, `Filter`, `Resample`,
`SamplingBlocks`, `StateDistribution().Mean()`) is not part of this
repository; its state and the contracts the orchestration code relies on are
modelled from the spec (each such definition carries a doc comment starting
with `Modelled from the spec:`).  Everything else (the order and arguments of
the calls the tracker makes, the session clock handling, the absence of any
validation) is translated directly from the source.

Machine reals (`double`) are modelled as `ℚ`; the NaN sentinel used for the
uninitialized session clock (`last_measurement_time_ = quiet_NaN()`) is
modelled as `Option ℚ = none`.  Object count `k` (`object_names_.size()`) is a
type-level parameter of the tracker.  Randomness of the resampler is modelled
by an explicit selection oracle, so theorems quantify over every possible
resampling outcome.
-/

/-- A raw coefficient vector (`Eigen::VectorXd`). -/
abbrev Vec := List ℚ

/-- The state of a single rigid body, as the coefficient vector of its block
of the joint state (position first, matching `sf::FloatingBodySystem`). -/
abbrev Pose := Vec

/-- A joint rigid-body state of `k` objects (`sf::FloatingBodySystem<>` with
`k` bodies): object `i` occupies slot `i`. -/
abbrev JointState (k : Nat) := Fin k → Pose

/-- The out-of-frame sentinel pose given to every object of `default_state`:
`default_state.position(object_index) = Eigen::Vector3d(0, 0, 1.5)` with the
remaining coefficients left at their default-constructed values
(source line 400, comment "outside of image"). -/
def sentinelPose : Pose := [0, 0, 3/2]

/-- The default multi-body state built at the start of staged initialization:
every object is placed at the out-of-frame sentinel pose
(source lines 398-400). -/
def defaultState (k : Nat) : JointState k := fun _ => sentinelPose

/-- Reading body `i`'s coefficient block out of a joint Eigen vector
(`multi_body_samples[i] = initial_states[i]` in full-state mode,
source line 427). -/
def vecToJoint (k : Nat) (v : Vec) : JointState k :=
  fun i => (v.drop (i.val * (v.length / k))).take (v.length / k)

/-- A depth image (`sensor_msgs::Image` / the converted `Observation`): only
the dimensions and the capture timestamp are relevant to the tracker's
orchestration logic; the pixel data is consumed by the external observation
model only. -/
structure Img where
  rows : Nat
  cols : Nat
  stamp : ℚ
deriving DecidableEq

/-- `ri::Ros2Eigen<Scalar>(ros_image, downsampling_factor_)`: the image handed
to the filter is downsampled by the configured integer factor
(source lines 272, 445). -/
def downsampleImg (d : Nat) (img : Img) : Img :=
  { img with rows := img.rows / d, cols := img.cols / d }

/-- A 3x3 camera intrinsic matrix. -/
abbrev CameraMatrix := Fin 3 → Fin 3 → ℚ

/-- `camera_matrix.topLeftCorner(2,3) /= double(downsampling_factor_)`
(source line 271). -/
def scaleCameraMatrix (d : Nat) (m : CameraMatrix) : CameraMatrix :=
  fun r c => if r.val < 2 then m r c / (d : ℚ) else m r c

/-- The zero exogenous control input
`ProcessModel::Input::Zero(object_names_.size()*6)` (source lines 417, 430,
449): dimension six times the object count, all entries zero. -/
def zeroInput (k : Nat) : List ℚ := List.replicate (k * 6) 0

/-- The C++ conversion of a (64-bit-promoted) signed integer to `size_t`, as
performed by the usual arithmetic conversions in
`evaluation_count/sampling_blocks.size()` (source line 432, `int` divided by
`size_t`): reduction modulo 2^64, so a negative count wraps around to a huge
unsigned value.  (The literal is 2^64.) -/
def usizeOfInt (v : Int) : Nat := (v % (18446744073709551616 : Int)).toNat

/-- The configuration read at the start of `Initialize` via
`ri::ReadParameter` (source lines 275-292).  `evaluation_count` is an `int` in
the source (line 280) and is modelled as `Int`, so non-positive population
sizes are representable.  The scalar model parameters are consumed only by the
external observation/process model constructors; they are recorded for
fidelity.  None of them is validated anywhere in the source. -/
structure Config where
  use_gpu : Bool
  evaluation_count : Int
  sampling_blocks : List (List Nat)
  max_kl_divergence : ℚ
  max_sample_count : Nat
  p_visible_init : ℚ
  p_visible_visible : ℚ
  p_visible_occluded : ℚ
  linear_acceleration_sigma : ℚ
  angular_acceleration_sigma : ℚ
  damping : ℚ
  tail_weight : ℚ
  model_sigma : ℚ
  sigma_factor : ℚ

/-- One operation commanded on the particle filter object; the embedding logs
these so that theorems can speak about the exact sequence of filter
invocations the tracker performs. -/
inductive Op where
  | setBlocks (blocks : List (List Nat))
  | setSamples (count : Nat)
  | filterStep (delta_time : ℚ) (input : List ℚ)
  | resample (target : Nat)
deriving DecidableEq

/-- Modelled from the spec: the state of the external particle-filter object
(`CoordinateFilter` of the `state_filtering` library, held in `filter_`): an
ordered population of joint-state samples together with the active
sampling-block schedule (spec §3 Particle Population, §3 Sampling Block). -/
structure SpecFilter (k : Nat) where
  samples : List (JointState k)
  blocks : List (List Nat)

/-- Modelled from the spec: `filter_->Samples(multi_body_samples)` replaces
the population by the given samples (spec §3 Particle Population). -/
def SpecFilter.SetSamples (f : SpecFilter k) (ss : List (JointState k)) :
    SpecFilter k :=
  { f with samples := ss }

/-- Modelled from the spec: `filter_->SamplingBlocks(blocks)` installs the
active sampling schedule (spec §3 Sampling Block). -/
def SpecFilter.SamplingBlocks (f : SpecFilter k) (bs : List (List Nat)) :
    SpecFilter k :=
  { f with blocks := bs }

/-- Modelled from the spec: `filter_->Filter(image, delta_time, input)`, the
propagate-weight step.  At `Δt = 0` the process model reduces to the identity
and no dynamics noise is injected (spec §4.3 edge case, §4.5), so the sample
states are unchanged; only the (untracked) weights move.  State evolution at
`Δt ≠ 0` is stochastic and outside every claim proved here; the recorded
sample states are left unchanged as well.  This is the population bookkeeping
of a non-faulting call only: the spec's fatal condition for the step (an
empty/degenerate population, §4.3, §7) is modelled by `FilterStepChecked`
below, which the claims about degenerate inputs use. -/
def SpecFilter.FilterStep (f : SpecFilter k) (_image : Img) (_delta_time : ℚ)
    (_input : List ℚ) : SpecFilter k :=
  f

/-- Modelled from the spec: `filter_->Resample(n)` replaces the population by
exactly `n` particles, each a copy of an existing particle chosen by the
random source `choice` (importance-resampling contract, spec §4.4, §8).  The
draw is reduced modulo the population size so that every draw selects an
existing particle; theorems quantify over every `choice`.  This is the
population bookkeeping of a non-faulting call only: the spec's rejection of
`target_size == 0` (§4.4) and the degenerate empty source population (§7) are
modelled by `ResampleChecked` below, which the claims about degenerate inputs
use. -/
def SpecFilter.Resample (f : SpecFilter k) (choice : Nat → Nat) (n : Nat) :
    SpecFilter k :=
  { f with
      samples :=
        (List.range n).map fun i =>
          f.samples.getD (choice i % f.samples.length) (defaultState k) }

/-- Modelled from the spec: `filter_->StateDistribution().Mean()` — the
point estimate is the naive linear average of the (equally weighted)
population (spec §3 Belief; §9 notes the source takes a naive mean). -/
def SpecFilter.mean (f : SpecFilter k) : JointState k :=
  fun i =>
    match f.samples.map (fun s => s i) with
    | [] => []
    | v :: vs =>
      (vs.foldl (fun a b => List.zipWith (· + ·) a b) v).map
        (fun x => x / ((1 + vs.length : ℕ) : ℚ))

/-- The tracker instance: the fields of `MultiObjectTracker` relevant to the
core, plus the dimensions/intrinsics the observation model was constructed
with (`ObserverCPUType(camera_matrix, image.rows(), image.cols(), ...)`,
source lines 333-341) and the log of filter operations commanded so far. -/
structure Tracker (k : Nat) where
  last_measurement_time_ : Option ℚ
  downsampling_factor_ : Nat
  filter_ : SpecFilter k
  obs_rows : Nat
  obs_cols : Nat
  obs_camera : CameraMatrix
  log : List Op

/-- The constructor `MultiObjectTracker::MultiObjectTracker()`: the session
clock starts unset (`last_measurement_time_(quiet_NaN())`, source line 255);
`filter_` is not yet constructed (modelled as an empty filter). -/
def MultiObjectTracker.new (k : Nat) (downsampling_factor : Nat) : Tracker k :=
  { last_measurement_time_ := none
    downsampling_factor_ := downsampling_factor
    filter_ := { samples := [], blocks := [] }
    obs_rows := 0
    obs_cols := 0
    obs_camera := fun _ _ => 0
    log := [] }

/-- The full-joint sampling schedule built for initialization
(source lines 390-393): a single block `dependent_sampling_blocks[0]`
containing every index `0, ..., k*6 - 1`. -/
def dependentSamplingBlocks (k : Nat) : List (List Nat) :=
  [List.range (k * 6)]

/-- The injection loop of one stage of staged initialization
(source lines 410-415): sample `state_index` gets candidate
`initial_states[state_index]` written into the block of object `body_index`,
all other blocks kept.  `i` is the index of the first sample of `ss` in the
original population. -/
def stageInject (k : Nat) (body_index : Nat) (initial_states : List Vec) :
    Nat → List (JointState k) → List (JointState k)
  | _, [] => []
  | i, s :: rest =>
    (fun j => if j.val = body_index then initial_states.getD i [] else s j) ::
      stageInject k body_index initial_states (i + 1) rest

/-- The accumulator of the staged-initialization loop: the filter, the local
`multi_body_samples` vector, and the filter operations commanded so far. -/
structure StageState (k : Nat) where
  filter : SpecFilter k
  multi_body_samples : List (JointState k)
  ops : List Op

/-- The staged-initialization loop (source lines 402-421) after `b` stages:
`multi_body_samples` starts as `initial_states.size()` copies of the
all-sentinel default state; stage `b` injects the candidates into object `b`'s
block of every sample, hands the samples to the filter, runs one filter step
with zero elapsed time and zero control input, resamples back to the local
sample count, and reads the resampled population back.  `sel b` is the random
source of stage `b`'s resampling. -/
def stagesUpTo (k : Nat) (sel : Nat → Nat → Nat) (initial_states : List Vec)
    (image : Img) (f1 : SpecFilter k) : Nat → StageState k
  | 0 =>
    { filter := f1
      multi_body_samples := initial_states.map fun _ => defaultState k
      ops := [] }
  | b + 1 =>
    let st := stagesUpTo k sel initial_states image f1 b
    let injected := stageInject k b initial_states 0 st.multi_body_samples
    let f2 := (st.filter.SetSamples injected).FilterStep image 0 (zeroInput k)
    let f3 := f2.Resample (sel b) injected.length
    { filter := f3
      multi_body_samples := f3.samples
      ops := st.ops ++
        [Op.setSamples injected.length, Op.filterStep 0 (zeroInput k),
         Op.resample injected.length] }

/-- `MultiObjectTracker::Initialize` (source lines 262-434).  `staged` is the
`state_is_partial` argument of the source.  Mesh loading and the
observation/process model construction are external collaborators; the
dimensions and intrinsics the observation model is built with are recorded in
the tracker.  Note that `last_measurement_time_` is not touched anywhere in
this function. -/
def MultiObjectTracker.Initialize (k : Nat) (tr : Tracker k)
    (sel : Nat → Nat → Nat) (initial_states : List Vec) (ros_image : Img)
    (camera_matrix : CameraMatrix) (staged : Bool) (cfg : Config) :
    Tracker k :=
  let camera_matrix := scaleCameraMatrix tr.downsampling_factor_ camera_matrix
  let image := downsampleImg tr.downsampling_factor_ ros_image
  -- filter_ = new FilterType(process, observation_model, sampling_blocks,
  --                          max_kl_divergence)            (source line 386)
  let f0 : SpecFilter k := { samples := [], blocks := cfg.sampling_blocks }
  -- filter_->SamplingBlocks(dependent_sampling_blocks)     (source line 394)
  let f1 := f0.SamplingBlocks (dependentSamplingBlocks k)
  let body :=
    if staged then
      let st := stagesUpTo k sel initial_states image f1 k
      (st.filter, st.ops)
    else
      -- multi_body_samples[i] = initial_states[i]          (source lines 425-427)
      let multi_body_samples := initial_states.map (vecToJoint k)
      let fb := (f1.SetSamples multi_body_samples).FilterStep image 0
        (zeroInput k)
      (fb, [Op.setSamples multi_body_samples.length,
            Op.filterStep 0 (zeroInput k)])
  -- filter_->Resample(evaluation_count/sampling_blocks.size()) (source line
  -- 432): int/size_t division; the int is converted to size_t (usizeOfInt).
  -- When sampling_blocks is empty this division is undefined behavior in the
  -- C++; this total bookkeeping model uses Nat division (yielding 0 there),
  -- and InitializeChecked below faults on that input instead.
  let target := usizeOfInt cfg.evaluation_count / cfg.sampling_blocks.length
  -- filter_->SamplingBlocks(sampling_blocks)               (source line 433)
  let fB := (body.1.Resample (sel k) target).SamplingBlocks cfg.sampling_blocks
  { tr with
      filter_ := fB
      obs_rows := image.rows
      obs_cols := image.cols
      obs_camera := camera_matrix
      log := tr.log ++ [Op.setBlocks (dependentSamplingBlocks k)] ++ body.2 ++
        [Op.resample target, Op.setBlocks cfg.sampling_blocks] }

/-- `MultiObjectTracker::Filter` (source lines 436-465), the per-frame update:
if the session clock is unset it is first set to the frame's timestamp (so the
elapsed time of the first call is zero), the elapsed time is the timestamp
minus the clock, one filter step runs with that elapsed time and the zero
control input of dimension `k*6`, the clock is set to the timestamp, and the
mean of the updated belief is returned.  No validation of the frame happens
anywhere in this function. -/
def MultiObjectTracker.Filter (k : Nat) (tr : Tracker k) (ros_image : Img) :
    Tracker k × JointState k :=
  let last0 :=
    match tr.last_measurement_time_ with
    | none => ros_image.stamp
    | some t => t
  let delta_time := ros_image.stamp - last0
  let image := downsampleImg tr.downsampling_factor_ ros_image
  let f2 := tr.filter_.FilterStep image delta_time (zeroInput k)
  ({ tr with
      filter_ := f2
      last_measurement_time_ := some ros_image.stamp
      log := tr.log ++ [Op.filterStep delta_time (zeroInput k)] },
   f2.mean)

/-- The sampling schedule active at the `n`-th (0-based) `filterStep`
operation of a log, given the schedule `cur` active before the log starts:
`setBlocks` installs a new schedule, every other operation leaves it
unchanged. -/
def activeBlocksAtStep (cur : List (List Nat)) :
    List Op → Nat → Option (List (List Nat))
  | [], _ => none
  | Op.setBlocks bs :: rest, n => activeBlocksAtStep bs rest n
  | Op.filterStep _ _ :: _, 0 => some cur
  | Op.filterStep _ _ :: rest, n + 1 => activeBlocksAtStep cur rest n
  | Op.setSamples _ :: rest, n => activeBlocksAtStep cur rest n
  | Op.resample _ :: rest, n => activeBlocksAtStep cur rest n

/-- The ways an initialization run can fault, per the spec's error taxonomy
and the C++ semantics of the source: a filter step or resample on an empty
(degenerate) population (spec §4.3, §7), a resample with target 0, which §4.4
declares an input-contract violation that is rejected, and the undefined
integer division by zero at source line 432 when the sampling-block list is
empty. -/
inductive InitFault where
  | emptyPopulation
  | zeroResampleTarget
  | divideByZero
deriving DecidableEq

/-- Modelled from the spec: `filter_->Filter(...)` with the fatal condition of
spec §4.3/§7 made explicit — a step on an empty population is fatal;
otherwise the step behaves as `SpecFilter.FilterStep`. -/
def SpecFilter.FilterStepChecked (f : SpecFilter k) (image : Img)
    (delta_time : ℚ) (input : List ℚ) : Except InitFault (SpecFilter k) :=
  if f.samples.length = 0 then .error .emptyPopulation
  else .ok (f.FilterStep image delta_time input)

/-- Modelled from the spec: `filter_->Resample(n)` with the contract of spec
§4.4/§7 made explicit — target 0 is an input-contract violation, rejected;
resampling from an empty population is a degenerate-population fault;
otherwise the resample behaves as `SpecFilter.Resample`. -/
def SpecFilter.ResampleChecked (f : SpecFilter k) (choice : Nat → Nat)
    (n : Nat) : Except InitFault (SpecFilter k) :=
  if n = 0 then .error .zeroResampleTarget
  else if f.samples.length = 0 then .error .emptyPopulation
  else .ok (f.Resample choice n)

/-- The staged-initialization loop of `stagesUpTo`, with the external calls
replaced by their checked variants: the first fault aborts the run, as the
spec requires of the external filter (`stagesUpTo` itself is the total
population bookkeeping of the same source lines 402-421). -/
def stagesUpToChecked (k : Nat) (sel : Nat → Nat → Nat)
    (initial_states : List Vec) (image : Img) (f1 : SpecFilter k) :
    Nat → Except InitFault (StageState k)
  | 0 =>
    .ok { filter := f1
          multi_body_samples := initial_states.map fun _ => defaultState k
          ops := [] }
  | b + 1 =>
    match stagesUpToChecked k sel initial_states image f1 b with
    | .error e => .error e
    | .ok st =>
      let injected := stageInject k b initial_states 0 st.multi_body_samples
      match (st.filter.SetSamples injected).FilterStepChecked image 0
          (zeroInput k) with
      | .error e => .error e
      | .ok f2 =>
        match f2.ResampleChecked (sel b) injected.length with
        | .error e => .error e
        | .ok f3 =>
          .ok { filter := f3
                multi_body_samples := f3.samples
                ops := st.ops ++
                  [Op.setSamples injected.length,
                   Op.filterStep 0 (zeroInput k),
                   Op.resample injected.length] }

/-- `MultiObjectTracker::Initialize` (source lines 262-434) with the external
filter calls replaced by their checked variants and the undefined integer
division by zero of line 432 (`evaluation_count/sampling_blocks.size()` with
an empty block list) made an explicit fault: the run either completes with
the same tracker `Initialize` produces, or aborts at the first faulting call.
Note that no fault arises from validating the configuration or the
candidates — the tracker's own code checks nothing. -/
def MultiObjectTracker.InitializeChecked (k : Nat) (tr : Tracker k)
    (sel : Nat → Nat → Nat) (initial_states : List Vec) (ros_image : Img)
    (camera_matrix : CameraMatrix) (staged : Bool) (cfg : Config) :
    Except InitFault (Tracker k) :=
  let camera_matrix2 := scaleCameraMatrix tr.downsampling_factor_
    camera_matrix
  let image := downsampleImg tr.downsampling_factor_ ros_image
  let f0 : SpecFilter k := { samples := [], blocks := cfg.sampling_blocks }
  let f1 := f0.SamplingBlocks (dependentSamplingBlocks k)
  let body : Except InitFault (SpecFilter k × List Op) :=
    if staged then
      match stagesUpToChecked k sel initial_states image f1 k with
      | .error e => .error e
      | .ok st => .ok (st.filter, st.ops)
    else
      let multi_body_samples := initial_states.map (vecToJoint k)
      match (f1.SetSamples multi_body_samples).FilterStepChecked image 0
          (zeroInput k) with
      | .error e => .error e
      | .ok fb =>
        .ok (fb, [Op.setSamples multi_body_samples.length,
                  Op.filterStep 0 (zeroInput k)])
  match body with
  | .error e => .error e
  | .ok body2 =>
    if cfg.sampling_blocks.length = 0 then .error .divideByZero
    else
      let target := usizeOfInt cfg.evaluation_count /
        cfg.sampling_blocks.length
      match body2.1.ResampleChecked (sel k) target with
      | .error e => .error e
      | .ok fB =>
        .ok { tr with
          filter_ := fB.SamplingBlocks cfg.sampling_blocks
          obs_rows := image.rows
          obs_cols := image.cols
          obs_camera := camera_matrix2
          log := tr.log ++ [Op.setBlocks (dependentSamplingBlocks k)] ++
            body2.2 ++ [Op.resample target, Op.setBlocks cfg.sampling_blocks] }

/-- The three filter operations of one stage of staged initialization with
local sample count `N`. -/
def stageOps (k N : Nat) : List Op :=
  [Op.setSamples N, Op.filterStep 0 (zeroInput k), Op.resample N]

/-- A concrete camera intrinsic matrix for concrete instances. -/
def camEx : CameraMatrix := fun _ _ => 1

/-- A concrete resampling selection oracle: every draw picks particle 0. -/
def selEx : Nat → Nat → Nat := fun _ _ => 0

/-- An 8x8 depth frame with the given capture timestamp. -/
def imgAt (t : ℚ) : Img := { rows := 8, cols := 8, stamp := t }

/-- One candidate state (a single six-coefficient vector). -/
def candsEx1 : List Vec := [[1, 2, 3, 4, 5, 6]]

/-- Two single-object candidate poses. -/
def candsEx2 : List Vec := [[1], [2]]

/-- A concrete one-object configuration: population size 6, two sampling
blocks, so the operating population size is 6/2 = 3. -/
def cfgEx1 : Config :=
  { use_gpu := false
    evaluation_count := 6
    sampling_blocks := [[0, 1, 2], [3, 4, 5]]
    max_kl_divergence := 1
    max_sample_count := 10
    p_visible_init := 1/10
    p_visible_visible := 7/10
    p_visible_occluded := 3/10
    linear_acceleration_sigma := 1/10
    angular_acceleration_sigma := 1/10
    damping := 1/2
    tail_weight := 1/100
    model_sigma := 1/100
    sigma_factor := 1/100 }

/-- A concrete two-object configuration whose configured sampling schedule is
the two per-object blocks. -/
def cfgEx2 : Config :=
  { cfgEx1 with
      evaluation_count := 8
      sampling_blocks := [[0, 1, 2, 3, 4, 5], [6, 7, 8, 9, 10, 11]] }

/-- An invalid configuration: population size 0 and an empty sampling-block
partition (which covers nothing and makes the final resample target a
division by zero in the C++ source). -/
def cfgBad : Config :=
  { cfgEx1 with evaluation_count := 0, sampling_blocks := [] }

/-- A configuration whose population size (12) differs from the candidate
counts used in the concrete instances. -/
def cfgEx12 : Config := { cfgEx1 with evaluation_count := 12 }

/-- An invalid configuration of the other kind the claims name: its
sampling-block partition `[[0]]` does not cover the one-object state
dimensionality 6 (indices 1..5 are missing), while its arithmetic is
non-degenerate (population size 6, one block, final target 6). -/
def cfgNonCover : Config := { cfgEx1 with sampling_blocks := [[0]] }

/-- A tracker whose observation model was configured for 48x64 frames. -/
def trObs48x64 : Tracker 1 :=
  { last_measurement_time_ := some 0
    downsampling_factor_ := 1
    filter_ := { samples := [], blocks := [[0]] }
    obs_rows := 48
    obs_cols := 64
    obs_camera := fun _ _ => 0
    log := [] }

/-- A tracker initialized in full-state mode right after construction. -/
def trInitA : Tracker 1 :=
  MultiObjectTracker.Initialize 1 (MultiObjectTracker.new 1 1) selEx candsEx1
    (imgAt 0) camEx false cfgEx1

/-- `trInitA` after one per-frame update at timestamp 5. -/
def trAfterUpd : Tracker 1 := (MultiObjectTracker.Filter 1 trInitA (imgAt 5)).1

/-- `trAfterUpd` re-initialized (a new session started at timestamp 6). -/
def trReinit : Tracker 1 :=
  MultiObjectTracker.Initialize 1 trAfterUpd selEx candsEx1 (imgAt 6) camEx
    false cfgEx1

/-- `trInitA` re-initialized directly, with no update call in between. -/
def trReinitNoUpd : Tracker 1 :=
  MultiObjectTracker.Initialize 1 trInitA selEx candsEx1 (imgAt 6) camEx
    false cfgEx1

theorem stageInject_length (k b : Nat) (cands : List Vec) (i : Nat)
    (ss : List (JointState k)) :
    (stageInject k b cands i ss).length = ss.length := by
  induction ss generalizing i with
  | nil => rfl
  | cons s rest ih => simp [stageInject, ih]

theorem range_map_getD {α : Type} (n i : Nat) (g : Nat → α) (d : α) :
    ((List.range n).map g).getD i d = if i < n then g i else d := by
  by_cases h : i < n
  · rw [List.getD_eq_getElem _ _ (by simpa using h)]
    simp [h]
  · rw [List.getD_eq_default _ _ (by simpa using Nat.le_of_not_lt h)]
    simp [h]

theorem resample_samples_length (k : Nat) (f : SpecFilter k)
    (choice : Nat → Nat) (n : Nat) :
    ((f.Resample choice n).samples).length = n := by
  simp [SpecFilter.Resample]

theorem resample_samples_getD (k : Nat) (f : SpecFilter k)
    (choice : Nat → Nat) (n i : Nat) (d : JointState k) (h : i < n) :
    ((f.Resample choice n).samples).getD i d =
      f.samples.getD (choice i % f.samples.length) (defaultState k) := by
  simp [SpecFilter.Resample, range_map_getD, h]

theorem stagesUpTo_samples_length (k : Nat) (sel : Nat → Nat → Nat)
    (initial_states : List Vec) (image : Img) (f1 : SpecFilter k) (b : Nat) :
    ((stagesUpTo k sel initial_states image f1 b).multi_body_samples).length =
      initial_states.length := by
  induction b with
  | zero => simp [stagesUpTo]
  | succ b ih =>
    simp only [stagesUpTo, resample_samples_length, stageInject_length]
    exact ih

theorem stagesUpTo_ops (k : Nat) (sel : Nat → Nat → Nat)
    (initial_states : List Vec) (image : Img) (f1 : SpecFilter k) (b : Nat) :
    (stagesUpTo k sel initial_states image f1 b).ops =
      (List.replicate b (stageOps k initial_states.length)).flatten := by
  induction b with
  | zero => simp [stagesUpTo]
  | succ b ih =>
    simp only [stagesUpTo, ih, stageInject_length, stagesUpTo_samples_length,
      List.replicate_succ', List.flatten_append, stageOps]
    simp

theorem stageInject_mem (k b : Nat) (cands : List Vec) (i : Nat)
    (ss : List (JointState k)) (t : JointState k)
    (ht : t ∈ stageInject k b cands i ss) :
    ∃ s ∈ ss, ∀ j : Fin k, j.val ≠ b → t j = s j := by
  induction ss generalizing i with
  | nil => simp [stageInject] at ht
  | cons s rest ih =>
    simp only [stageInject, List.mem_cons] at ht
    rcases ht with h | h
    · refine ⟨s, List.mem_cons_self .., fun j hj => ?_⟩
      rw [h]
      simp [hj]
    · obtain ⟨s', hs', hagree⟩ := ih (i + 1) h
      exact ⟨s', List.mem_cons_of_mem _ hs', hagree⟩

theorem stagesUpTo_sentinel (k : Nat) (sel : Nat → Nat → Nat)
    (initial_states : List Vec) (image : Img) (f1 : SpecFilter k) (b : Nat)
    (s : JointState k)
    (hs : s ∈ (stagesUpTo k sel initial_states image f1 b).multi_body_samples)
    (j : Fin k) (hj : b < j.val) : s j = sentinelPose := by
  induction b generalizing s with
  | zero =>
    simp only [stagesUpTo, List.mem_map] at hs
    obtain ⟨_, _, rfl⟩ := hs
    rfl
  | succ b ih =>
    simp only [stagesUpTo, SpecFilter.Resample, SpecFilter.FilterStep,
      SpecFilter.SetSamples, List.mem_map, List.mem_range] at hs
    obtain ⟨i, _, rfl⟩ := hs
    set injected :=
      stageInject k b initial_states 0
        (stagesUpTo k sel initial_states image f1 b).multi_body_samples with
      hinj
    by_cases h : sel b i % injected.length < injected.length
    · rw [List.getD_eq_getElem _ _ h]
      have hmem := List.getElem_mem h
      obtain ⟨s', hs', hagree⟩ := stageInject_mem k b initial_states 0 _ _ hmem
      rw [hagree j (by omega)]
      exact ih s' hs' (by omega)
    · rw [List.getD_eq_default _ _ (Nat.le_of_not_lt h)]
      rfl

theorem stageInject_getD (k b : Nat) (cands : List Vec) (i m : Nat)
    (ss : List (JointState k)) (d : JointState k) (hm : m < ss.length) :
    (stageInject k b cands i ss).getD m d = fun j =>
      if j.val = b then cands.getD (i + m) [] else (ss.getD m d) j := by
  induction ss generalizing i m with
  | nil => simp at hm
  | cons s rest ih =>
    cases m with
    | zero => simp [stageInject]
    | succ m =>
      have harith : i + 1 + m = i + (m + 1) := by omega
      simp only [stageInject, List.getD_cons_succ]
      rw [ih (i + 1) m (by simpa using hm), harith]

theorem initialize_log_staged (k : Nat) (tr : Tracker k)
    (sel : Nat → Nat → Nat) (initial_states : List Vec) (ros_image : Img)
    (camera_matrix : CameraMatrix) (cfg : Config) :
    (MultiObjectTracker.Initialize k tr sel initial_states ros_image
        camera_matrix true cfg).log =
      tr.log ++ [Op.setBlocks (dependentSamplingBlocks k)] ++
        (List.replicate k (stageOps k initial_states.length)).flatten ++
        [Op.resample (usizeOfInt cfg.evaluation_count / cfg.sampling_blocks.length),
         Op.setBlocks cfg.sampling_blocks] := by
  simp [MultiObjectTracker.Initialize, stagesUpTo_ops]

theorem initialize_log_full (k : Nat) (tr : Tracker k)
    (sel : Nat → Nat → Nat) (initial_states : List Vec) (ros_image : Img)
    (camera_matrix : CameraMatrix) (cfg : Config) :
    (MultiObjectTracker.Initialize k tr sel initial_states ros_image
        camera_matrix false cfg).log =
      tr.log ++ [Op.setBlocks (dependentSamplingBlocks k),
        Op.setSamples initial_states.length, Op.filterStep 0 (zeroInput k),
        Op.resample (usizeOfInt cfg.evaluation_count / cfg.sampling_blocks.length),
        Op.setBlocks cfg.sampling_blocks] := by
  simp [MultiObjectTracker.Initialize]

theorem initialize_clock_unchanged (k : Nat) (tr : Tracker k)
    (sel : Nat → Nat → Nat) (initial_states : List Vec) (ros_image : Img)
    (camera_matrix : CameraMatrix) (staged : Bool) (cfg : Config) :
    (MultiObjectTracker.Initialize k tr sel initial_states ros_image
        camera_matrix staged cfg).last_measurement_time_ =
      tr.last_measurement_time_ := rfl

theorem activeBlocksAtStep_stages (k N : Nat) (cur : List (List Nat))
    (tail : List Op) (jcount b : Nat) (hb : b < jcount) :
    activeBlocksAtStep cur
      ((List.replicate jcount (stageOps k N)).flatten ++ tail) b = some cur := by
  induction jcount generalizing b with
  | zero => omega
  | succ j ih =>
    rw [List.replicate_succ]
    cases b with
    | zero => simp [activeBlocksAtStep, stageOps]
    | succ b =>
      simp only [List.flatten_cons, List.append_assoc, stageOps,
        List.cons_append, List.nil_append, activeBlocksAtStep]
      exact ih b (by omega)

/-- C1: staged partial initialization with `k` configured objects and `N`
candidate states performs exactly `k` stage iterations in object-index order
`0..k-1`; each iteration hands the filter the candidate-injected samples, runs
one filter step, and resamples back to `N` (the candidate count); after the
last stage exactly one final resample to the operating population size
`evaluation_count / sampling_blocks.size()` is performed.  The first conjunct
fixes the exact operation sequence; the second shows that stage `b` injects
candidate `i` into object `b`'s slot of sample `i`. -/
theorem staged_initialization_trace (k : Nat) (tr : Tracker k)
    (sel : Nat → Nat → Nat) (initial_states : List Vec) (ros_image : Img)
    (camera_matrix : CameraMatrix) (cfg : Config) :
    (MultiObjectTracker.Initialize k tr sel initial_states ros_image
        camera_matrix true cfg).log =
      tr.log ++ [Op.setBlocks (dependentSamplingBlocks k)] ++
        (List.replicate k (stageOps k initial_states.length)).flatten ++
        [Op.resample (usizeOfInt cfg.evaluation_count / cfg.sampling_blocks.length),
         Op.setBlocks cfg.sampling_blocks] ∧
    (∀ (b : Nat) (hb : b < k) (i : Nat), i < initial_states.length →
      (stageInject k b initial_states 0
        (stagesUpTo k sel initial_states
          (downsampleImg tr.downsampling_factor_ ros_image)
          (SpecFilter.SamplingBlocks
            { samples := [], blocks := cfg.sampling_blocks }
            (dependentSamplingBlocks k)) b).multi_body_samples).getD i
        (defaultState k) ⟨b, hb⟩ = initial_states.getD i []) := by
  refine ⟨initialize_log_staged k tr sel initial_states ros_image
    camera_matrix cfg, fun b hb i hi => ?_⟩
  have hlen := stagesUpTo_samples_length k sel initial_states
    (downsampleImg tr.downsampling_factor_ ros_image)
    (SpecFilter.SamplingBlocks { samples := [], blocks := cfg.sampling_blocks }
      (dependentSamplingBlocks k)) b
  rw [stageInject_getD k b initial_states 0 i _ _ (by omega)]
  simp

/-- Witness for C1: with two objects and candidates `[[1], [2]]`, stage 0
injects candidate 0 into object slot 0 of sample 0. -/
theorem staged_initialization_trace_witness :
    (stageInject 2 0 candsEx2 0
      (stagesUpTo 2 selEx candsEx2 (downsampleImg 1 (imgAt 0))
        (SpecFilter.SamplingBlocks
          { samples := [], blocks := cfgEx2.sampling_blocks }
          (dependentSamplingBlocks 2)) 0).multi_body_samples).getD 0
      (defaultState 2) ⟨0, by omega⟩ = candsEx2.getD 0 [] :=
  (staged_initialization_trace 2 (MultiObjectTracker.new 2 1) selEx candsEx2
    (imgAt 0) camEx cfgEx2).2 0 (by omega) 0 (by decide)

theorem stagesUpTo_succ_getD (k : Nat) (sel : Nat → Nat → Nat)
    (initial_states : List Vec) (image : Img) (f1 : SpecFilter k) (b i : Nat)
    (hi : i < initial_states.length) :
    (stagesUpTo k sel initial_states image f1
        (b + 1)).multi_body_samples.getD i (defaultState k) =
      (stageInject k b initial_states 0
          (stagesUpTo k sel initial_states image f1 b).multi_body_samples).getD
        (sel b i % (stageInject k b initial_states 0
          (stagesUpTo k sel initial_states image f1
            b).multi_body_samples).length) (defaultState k) := by
  have h : (stagesUpTo k sel initial_states image f1
      (b + 1)).multi_body_samples =
      (List.range (stageInject k b initial_states 0
          (stagesUpTo k sel initial_states image f1
            b).multi_body_samples).length).map
        (fun i2 => (stageInject k b initial_states 0
            (stagesUpTo k sel initial_states image f1
              b).multi_body_samples).getD
          (sel b i2 % (stageInject k b initial_states 0
            (stagesUpTo k sel initial_states image f1
              b).multi_body_samples).length) (defaultState k)) := rfl
  rw [h, range_map_getD,
    if_pos (by rw [stageInject_length, stagesUpTo_samples_length]; exact hi)]

/-- C8: at the start of every stage `b` of staged partial initialization,
every still-pending object (index greater than `b`) of every sample sits at
the single fixed out-of-frame sentinel pose; and stage `b` changes nothing but
object `b`'s slot: every other slot of each start-of-stage-`b+1` sample is
copied (through the resampling selection) from a sample of the previous
stage's resampled population. -/
theorem staged_pending_processed_invariant (k : Nat) (sel : Nat → Nat → Nat)
    (initial_states : List Vec) (image : Img) (f1 : SpecFilter k) :
    (∀ (b i : Nat) (j : Fin k), b < j.val →
      ((stagesUpTo k sel initial_states image f1 b).multi_body_samples.getD i
        (defaultState k)) j = sentinelPose) ∧
    (∀ b i, i < initial_states.length → ∃ m, m < initial_states.length ∧
      ∀ j : Fin k, j.val ≠ b →
        ((stagesUpTo k sel initial_states image f1
            (b + 1)).multi_body_samples.getD i (defaultState k)) j =
        ((stagesUpTo k sel initial_states image f1
            b).multi_body_samples.getD m (defaultState k)) j) := by
  constructor
  · intro b i j hj
    by_cases h :
        i < (stagesUpTo k sel initial_states image f1 b).multi_body_samples.length
    · rw [List.getD_eq_getElem _ _ h]
      exact stagesUpTo_sentinel k sel initial_states image f1 b _
        (List.getElem_mem h) j hj
    · rw [List.getD_eq_default _ _ (Nat.le_of_not_lt h)]
      rfl
  · intro b i hi
    have hlen := stagesUpTo_samples_length k sel initial_states image f1 b
    have hlinj : (stageInject k b initial_states 0
        (stagesUpTo k sel initial_states image f1
          b).multi_body_samples).length = initial_states.length := by
      rw [stageInject_length]
      exact hlen
    have hm : sel b i % initial_states.length < initial_states.length :=
      Nat.mod_lt _ (by omega)
    refine ⟨sel b i % initial_states.length, hm, fun j hj => ?_⟩
    rw [stagesUpTo_succ_getD k sel initial_states image f1 b i hi, hlinj,
      stageInject_getD k b initial_states 0 _ _ _ (by omega)]
    simp [hj]

/-- Witness for C8: with two objects and candidates `[[1], [2]]`, at the start
of stage 0 the pending object 1 of sample 0 is at the sentinel pose, and the
start-of-stage-1 samples copy their non-0 slots from stage-0 samples. -/
theorem staged_pending_processed_invariant_witness :
    (((stagesUpTo 2 selEx candsEx2 (imgAt 0)
        { samples := [], blocks := [] } 0).multi_body_samples.getD 0
      (defaultState 2)) (⟨1, by decide⟩ : Fin 2) = sentinelPose) ∧
    (∃ m, m < candsEx2.length ∧ ∀ j : Fin 2, j.val ≠ 0 →
      ((stagesUpTo 2 selEx candsEx2 (imgAt 0)
          { samples := [], blocks := [] } 1).multi_body_samples.getD 0
        (defaultState 2)) j =
      ((stagesUpTo 2 selEx candsEx2 (imgAt 0)
          { samples := [], blocks := [] } 0).multi_body_samples.getD m
        (defaultState 2)) j) :=
  ⟨(staged_pending_processed_invariant 2 selEx candsEx2 (imgAt 0)
      { samples := [], blocks := [] }).1 0 0 (⟨1, by decide⟩ : Fin 2)
      (by decide),
   (staged_pending_processed_invariant 2 selEx candsEx2 (imgAt 0)
      { samples := [], blocks := [] }).2 0 0 (by decide)⟩

/-- C2 counterexample: for two objects (candidates `[[1], [2]]`), the sampling
schedule active at the stage-0 and stage-1 filter steps of staged
initialization is the single full-joint block `[0..11]`, not object 0's block
`[0..5]` and not object 1's block `[6..11]`: the stage steps are never
restricted to the staged object's block. -/
theorem staged_schedule_not_object_restricted :
    activeBlocksAtStep cfgEx2.sampling_blocks
      (MultiObjectTracker.Initialize 2 (MultiObjectTracker.new 2 1) selEx
        candsEx2 (imgAt 0) camEx true cfgEx2).log 0 =
      some [[0, 1, 2, 3, 4, 5, 6, 7, 8, 9, 10, 11]] ∧
    activeBlocksAtStep cfgEx2.sampling_blocks
      (MultiObjectTracker.Initialize 2 (MultiObjectTracker.new 2 1) selEx
        candsEx2 (imgAt 0) camEx true cfgEx2).log 1 =
      some [[0, 1, 2, 3, 4, 5, 6, 7, 8, 9, 10, 11]] ∧
    ([[0, 1, 2, 3, 4, 5, 6, 7, 8, 9, 10, 11]] : List (List Nat)) ≠
      [[0, 1, 2, 3, 4, 5]] ∧
    ([[0, 1, 2, 3, 4, 5, 6, 7, 8, 9, 10, 11]] : List (List Nat)) ≠
      [[6, 7, 8, 9, 10, 11]] := by
  decide

/-- C2 amended: during every stage `b < k` of staged partial initialization,
the active sampling schedule at the stage's filter step is the single
full-joint dependent block containing all `k*6` coordinates (installed once
before the stage loop and never changed during it); the coordinates outside
object `b`'s block are held fixed only because the stage's filter step runs
with zero elapsed time, not by a restricted schedule. -/
theorem staged_schedule_full_joint (k : Nat) (tr : Tracker k)
    (sel : Nat → Nat → Nat) (initial_states : List Vec) (ros_image : Img)
    (camera_matrix : CameraMatrix) (cfg : Config) (hlog : tr.log = [])
    (b : Nat) (hb : b < k) :
    activeBlocksAtStep cfg.sampling_blocks
      (MultiObjectTracker.Initialize k tr sel initial_states ros_image
        camera_matrix true cfg).log b = some [List.range (k * 6)] := by
  rw [initialize_log_staged, hlog]
  simp only [List.nil_append, List.cons_append, List.append_assoc,
    activeBlocksAtStep, dependentSamplingBlocks]
  exact activeBlocksAtStep_stages k initial_states.length [List.range (k * 6)]
    _ k b hb

/-- Witness for C2's amended claim: the stage-1 filter step of the concrete
two-object staged initialization runs under the full-joint schedule. -/
theorem staged_schedule_full_joint_witness :
    activeBlocksAtStep cfgEx2.sampling_blocks
      (MultiObjectTracker.Initialize 2 (MultiObjectTracker.new 2 1) selEx
        candsEx2 (imgAt 3) camEx true cfgEx2).log 1 =
      some [List.range 12] :=
  staged_schedule_full_joint 2 (MultiObjectTracker.new 2 1) selEx candsEx2
    (imgAt 3) camEx cfgEx2 rfl 1 (by decide)

/-- C3 counterexample: initialization does not touch the session clock.  After
constructing, initializing, updating at timestamp 5 and then re-initializing,
the session clock still reads 5, and the first update after that
initialization runs a filter step with elapsed time `7 - 5 = 2 ≠ 0`; the same
two initializations with no update in between give elapsed time 0.  Hence the
behavior of the first post-initialization update depends on updates made
before initialization completed. -/
theorem session_clock_survives_reinitialization :
    trReinit.last_measurement_time_ = some 5 ∧
    (MultiObjectTracker.Filter 1 trReinit (imgAt 7)).1.log.getLast? =
      some (Op.filterStep ((7 : ℚ) - 5) (zeroInput 1)) ∧
    (MultiObjectTracker.Filter 1 trReinitNoUpd (imgAt 7)).1.log.getLast? =
      some (Op.filterStep ((7 : ℚ) - 7) (zeroInput 1)) ∧
    (7 : ℚ) - 5 ≠ 0 ∧ (7 : ℚ) - 7 = 0 := by
  refine ⟨rfl, rfl, rfl, by norm_num, by norm_num⟩

/-- C3 amended: `Initialize` leaves the session clock exactly as it found it
(only construction resets it to unset); consequently the first update after an
initialization computes zero elapsed time exactly when no update has run since
construction, as in the freshly-constructed tracker of the second conjunct. -/
theorem initialize_preserves_session_clock (k : Nat) (tr : Tracker k)
    (sel : Nat → Nat → Nat) (initial_states : List Vec) (ros_image : Img)
    (camera_matrix : CameraMatrix) (staged : Bool) (cfg : Config) (d : Nat)
    (img2 : Img) :
    (MultiObjectTracker.Initialize k tr sel initial_states ros_image
        camera_matrix staged cfg).last_measurement_time_ =
      tr.last_measurement_time_ ∧
    (MultiObjectTracker.Filter k
        (MultiObjectTracker.Initialize k (MultiObjectTracker.new k d) sel
          initial_states ros_image camera_matrix staged cfg) img2).1.log =
      (MultiObjectTracker.Initialize k (MultiObjectTracker.new k d) sel
        initial_states ros_image camera_matrix staged cfg).log ++
        [Op.filterStep 0 (zeroInput k)] := by
  refine ⟨rfl, ?_⟩
  have h : (MultiObjectTracker.Initialize k (MultiObjectTracker.new k d) sel
      initial_states ros_image camera_matrix staged
      cfg).last_measurement_time_ = none := rfl
  simp [MultiObjectTracker.Filter, h]

/-- C4: every per-frame update runs exactly one filter step whose elapsed time
is the frame timestamp minus the stored session clock (zero when the clock is
unset) and whose control input is the all-zero vector of dimension six times
the object count; it then sets the session clock to the frame timestamp and
returns the mean of the updated belief. -/
theorem per_frame_update_contract (k : Nat) (tr : Tracker k)
    (ros_image : Img) :
    (MultiObjectTracker.Filter k tr ros_image).1.log =
      tr.log ++ [Op.filterStep
        (ros_image.stamp - tr.last_measurement_time_.getD ros_image.stamp)
        (List.replicate (k * 6) (0 : ℚ))] ∧
    (MultiObjectTracker.Filter k tr ros_image).1.last_measurement_time_ =
      some ros_image.stamp ∧
    (MultiObjectTracker.Filter k tr ros_image).2 =
      (tr.filter_.FilterStep (downsampleImg tr.downsampling_factor_ ros_image)
        (ros_image.stamp - tr.last_measurement_time_.getD ros_image.stamp)
        (zeroInput k)).mean ∧
    (tr.last_measurement_time_ = none →
      ros_image.stamp - tr.last_measurement_time_.getD ros_image.stamp = 0) := by
  cases h : tr.last_measurement_time_ with
  | none =>
    refine ⟨?_, rfl, rfl, fun _ => by simp [h]⟩
    simp [MultiObjectTracker.Filter, h, zeroInput]
  | some t0 =>
    refine ⟨?_, rfl, rfl, fun habs => by simp [h] at habs⟩
    simp [MultiObjectTracker.Filter, h, zeroInput]

/-- Witness for C4: updating a freshly constructed tracker with a frame at
timestamp 7 stores timestamp 7 in the session clock and, since the clock was
unset, the elapsed time is zero. -/
theorem per_frame_update_contract_witness :
    ((MultiObjectTracker.Filter 1 (MultiObjectTracker.new 1 2)
        (imgAt 7)).1.last_measurement_time_ = some (imgAt 7).stamp) ∧
    ((imgAt 7).stamp -
        (MultiObjectTracker.new 1 2).last_measurement_time_.getD
          (imgAt 7).stamp = 0) :=
  ⟨(per_frame_update_contract 1 (MultiObjectTracker.new 1 2) (imgAt 7)).2.1,
   (per_frame_update_contract 1 (MultiObjectTracker.new 1 2) (imgAt 7)).2.2.2
     rfl⟩

/-- C5 counterexample: a 10x10 frame fed to a tracker whose observation model
was configured for 48x64 frames is not rejected: the update still runs a
filter step on it and advances the session clock, instead of leaving the
belief alone and signalling a failure.  (No dimension check exists anywhere in
the per-frame update.) -/
theorem mismatched_frame_still_processed :
    ({ rows := 10, cols := 10, stamp := 1 : Img }.rows /
        trObs48x64.downsampling_factor_ ≠ trObs48x64.obs_rows) ∧
    (MultiObjectTracker.Filter 1 trObs48x64
        { rows := 10, cols := 10, stamp := 1 }).1.log =
      [Op.filterStep ((1 : ℚ) - 0) (zeroInput 1)] ∧
    (MultiObjectTracker.Filter 1 trObs48x64
        { rows := 10, cols := 10, stamp := 1 }).1.last_measurement_time_ =
      some 1 := by
  refine ⟨by decide, rfl, rfl⟩

/-- C5 amended: the per-frame update performs no dimension validation at all:
even when the (downsampled) frame dimensions differ from the dimensions the
observation model was configured with, the update runs its one filter step,
advances the session clock and returns the mean, exactly as for a matching
frame. -/
theorem update_skips_dimension_check (k : Nat) (tr : Tracker k)
    (ros_image : Img)
    (_hmismatch : ros_image.rows / tr.downsampling_factor_ ≠ tr.obs_rows ∨
      ros_image.cols / tr.downsampling_factor_ ≠ tr.obs_cols) :
    (MultiObjectTracker.Filter k tr ros_image).1.log =
      tr.log ++ [Op.filterStep
        (ros_image.stamp - tr.last_measurement_time_.getD ros_image.stamp)
        (zeroInput k)] ∧
    (MultiObjectTracker.Filter k tr ros_image).1.last_measurement_time_ =
      some ros_image.stamp ∧
    (MultiObjectTracker.Filter k tr ros_image).2 =
      (tr.filter_.FilterStep (downsampleImg tr.downsampling_factor_ ros_image)
        (ros_image.stamp - tr.last_measurement_time_.getD ros_image.stamp)
        (zeroInput k)).mean := by
  cases h : tr.last_measurement_time_ with
  | none =>
    refine ⟨?_, rfl, rfl⟩
    simp [MultiObjectTracker.Filter, h]
  | some t0 =>
    refine ⟨?_, rfl, rfl⟩
    simp [MultiObjectTracker.Filter, h]

/-- Witness for C5's amended claim: the mismatched 10x10 frame advances the
session clock of the 48x64-configured tracker to its timestamp. -/
theorem update_skips_dimension_check_witness :
    (MultiObjectTracker.Filter 1 trObs48x64
        { rows := 10, cols := 10, stamp := 2 }).1.last_measurement_time_ =
      some ({ rows := 10, cols := 10, stamp := 2 : Img }).stamp :=
  (update_skips_dimension_check 1 trObs48x64
    { rows := 10, cols := 10, stamp := 2 } (Or.inl (by decide))).2.1

theorem stagesUpToChecked_ok (k : Nat) (sel : Nat → Nat → Nat)
    (initial_states : List Vec) (image : Img) (f1 : SpecFilter k)
    (hc : initial_states ≠ []) (b : Nat) :
    stagesUpToChecked k sel initial_states image f1 b =
      .ok (stagesUpTo k sel initial_states image f1 b) := by
  have hN : 0 < initial_states.length := List.length_pos.mpr hc
  induction b with
  | zero => rfl
  | succ b ih =>
    have hinj : (stageInject k b initial_states 0
        (stagesUpTo k sel initial_states image f1
          b).multi_body_samples).length = initial_states.length := by
      rw [stageInject_length]
      exact stagesUpTo_samples_length k sel initial_states image f1 b
    have hF : initial_states.length ≠ 0 := by omega
    simp [stagesUpToChecked, ih, SpecFilter.SetSamples,
      SpecFilter.FilterStepChecked, SpecFilter.FilterStep,
      SpecFilter.ResampleChecked, hinj, hF, stagesUpTo]

theorem stagesUpTo_filter_samples_length (k : Nat) (sel : Nat → Nat → Nat)
    (initial_states : List Vec) (image : Img) (f1 : SpecFilter k) (b : Nat)
    (hb : 0 < b) :
    (stagesUpTo k sel initial_states image f1 b).filter.samples.length =
      initial_states.length := by
  cases b with
  | zero => omega
  | succ b2 =>
    have e : (stagesUpTo k sel initial_states image f1
        (b2 + 1)).filter.samples =
        (stagesUpTo k sel initial_states image f1
          (b2 + 1)).multi_body_samples := rfl
    rw [e]
    exact stagesUpTo_samples_length k sel initial_states image f1 (b2 + 1)

theorem initializeChecked_eq_ok (k : Nat) (tr : Tracker k)
    (sel : Nat → Nat → Nat) (initial_states : List Vec) (ros_image : Img)
    (camera_matrix : CameraMatrix) (staged : Bool) (cfg : Config)
    (hc : initial_states ≠ []) (hk : staged = true → 0 < k)
    (hb : cfg.sampling_blocks ≠ [])
    (ht : usizeOfInt cfg.evaluation_count / cfg.sampling_blocks.length ≠ 0) :
    MultiObjectTracker.InitializeChecked k tr sel initial_states ros_image
        camera_matrix staged cfg =
      .ok (MultiObjectTracker.Initialize k tr sel initial_states ros_image
        camera_matrix staged cfg) := by
  have hN : 0 < initial_states.length := List.length_pos.mpr hc
  have hbl : cfg.sampling_blocks.length ≠ 0 := by
    intro h
    exact hb (List.length_eq_zero.mp h)
  have hm : initial_states.length ≠ 0 := by omega
  cases staged with
  | false =>
    simp [MultiObjectTracker.InitializeChecked,
      MultiObjectTracker.Initialize, SpecFilter.SetSamples,
      SpecFilter.FilterStepChecked, SpecFilter.FilterStep,
      SpecFilter.ResampleChecked, hbl, ht, hm]
  | true =>
    have hk2 : 0 < k := hk rfl
    simp [MultiObjectTracker.InitializeChecked,
      MultiObjectTracker.Initialize,
      stagesUpToChecked_ok k sel initial_states _ _ hc,
      SpecFilter.ResampleChecked, hbl, ht, hm,
      stagesUpTo_filter_samples_length k sel initial_states, hk2]

/-- C6 counterexample: the configured sampling-block partition `[[0]]` does
not cover the one-object state dimensionality (indices 1..5 are missing), yet
the checked initialization run — in which every spec-declared fault of the
external collaborators aborts the run — accepts it: initialization completes
with its full operation sequence and installs the non-covering schedule.  The
session begins; nothing rejects the invalid configuration. -/
theorem noncovering_config_accepted :
    (cfgNonCover.sampling_blocks.flatten ≠ List.range (1 * 6)) ∧
    (MultiObjectTracker.InitializeChecked 1 (MultiObjectTracker.new 1 1) selEx
        candsEx1 (imgAt 0) camEx false cfgNonCover).toOption.map Tracker.log =
      some [Op.setBlocks [[0, 1, 2, 3, 4, 5]], Op.setSamples 1,
        Op.filterStep 0 (zeroInput 1), Op.resample 6, Op.setBlocks [[0]]] ∧
    (MultiObjectTracker.InitializeChecked 1 (MultiObjectTracker.new 1 1) selEx
        candsEx1 (imgAt 0) camEx false cfgNonCover).toOption.map
      (fun tr2 => tr2.filter_.blocks) = some [[0]] := by
  refine ⟨by decide, rfl, rfl⟩

/-- C6 amended: `Initialize` performs no configuration validation.  Whenever
the run's arithmetic is non-degenerate (non-empty candidates, at least one
stage in staged mode, a non-empty block list and a non-zero final resample
target), the checked run completes and equals the unchecked one — for every
configuration, covering or not, whatever the population size's sign encoded
through the int-to-size_t conversion; and with an empty block list the run
aborts with the line-432 division by zero (undefined behavior in the C++),
not with an orderly rejection. -/
theorem initialize_validation_free (k : Nat) (tr : Tracker k)
    (sel : Nat → Nat → Nat) (initial_states : List Vec) (ros_image : Img)
    (camera_matrix : CameraMatrix) (staged : Bool) (cfg : Config)
    (hc : initial_states ≠ []) (hk : staged = true → 0 < k)
    (hb : cfg.sampling_blocks ≠ [])
    (ht : usizeOfInt cfg.evaluation_count / cfg.sampling_blocks.length ≠ 0) :
    (MultiObjectTracker.InitializeChecked k tr sel initial_states ros_image
        camera_matrix staged cfg =
      .ok (MultiObjectTracker.Initialize k tr sel initial_states ros_image
        camera_matrix staged cfg)) ∧
    (∀ cfg2 : Config, cfg2.sampling_blocks = [] →
      MultiObjectTracker.InitializeChecked k tr sel initial_states ros_image
        camera_matrix staged cfg2 = .error InitFault.divideByZero) := by
  have hN : 0 < initial_states.length := List.length_pos.mpr hc
  refine ⟨initializeChecked_eq_ok k tr sel initial_states ros_image
    camera_matrix staged cfg hc hk hb ht, fun cfg2 h2 => ?_⟩
  have hm : initial_states.length ≠ 0 := by omega
  cases staged with
  | false =>
    simp [MultiObjectTracker.InitializeChecked, SpecFilter.SetSamples,
      SpecFilter.FilterStepChecked, SpecFilter.FilterStep, hm, h2]
  | true =>
    simp [MultiObjectTracker.InitializeChecked,
      stagesUpToChecked_ok k sel initial_states _ _ hc, h2]

/-- Witness for C6's amended claim: the non-covering configuration is
accepted (the checked run completes and agrees with the unchecked embedding),
while the empty-block-list configuration aborts with the division-by-zero
fault. -/
theorem initialize_validation_free_witness :
    (MultiObjectTracker.InitializeChecked 1 (MultiObjectTracker.new 1 1) selEx
        candsEx1 (imgAt 0) camEx false cfgNonCover =
      .ok (MultiObjectTracker.Initialize 1 (MultiObjectTracker.new 1 1) selEx
        candsEx1 (imgAt 0) camEx false cfgNonCover)) ∧
    (MultiObjectTracker.InitializeChecked 1 (MultiObjectTracker.new 1 1) selEx
        candsEx1 (imgAt 0) camEx false cfgBad =
      .error InitFault.divideByZero) :=
  ⟨(initialize_validation_free 1 (MultiObjectTracker.new 1 1) selEx candsEx1
      (imgAt 0) camEx false cfgNonCover (by decide)
      (fun h => absurd h (by decide)) (by decide) (by decide)).1,
   (initialize_validation_free 1 (MultiObjectTracker.new 1 1) selEx candsEx1
      (imgAt 0) camEx false cfgNonCover (by decide)
      (fun h => absurd h (by decide)) (by decide) (by decide)).2 cfgBad rfl⟩

/-- C7 counterexample: in full-state mode with two candidate states, a
configured population size of 12 and two sampling blocks (operating size 6),
the population handed to the initialization filter step has exactly 2 samples
— the candidate count — not the configured 12 and not the operating 6: the
seeding is never replicated or resampled up to the configured population size
before the filter step. -/
theorem full_init_seeds_candidate_count_only :
    (MultiObjectTracker.Initialize 1 (MultiObjectTracker.new 1 1) selEx
        candsEx2 (imgAt 0) camEx false cfgEx12).log =
      [Op.setBlocks [[0, 1, 2, 3, 4, 5]], Op.setSamples 2,
       Op.filterStep 0 (zeroInput 1), Op.resample 6,
       Op.setBlocks [[0, 1, 2], [3, 4, 5]]] ∧
    (2 : Nat) ≠ 12 ∧ (2 : Nat) ≠ 6 := by
  decide

/-- C7 amended: full-state initialization seeds the population with exactly
one sample per candidate (no replication or resampling up to the configured
population size), runs exactly one full-joint filter step against the first
frame with zero elapsed time, then resamples to the operating size
`evaluation_count / sampling_blocks.size()` while the full-joint schedule is
still active, and finally restores the configured sampling schedule (which the
resulting filter carries, with a population of exactly the operating size). -/
theorem full_initialization_trace (k : Nat) (tr : Tracker k)
    (sel : Nat → Nat → Nat) (initial_states : List Vec) (ros_image : Img)
    (camera_matrix : CameraMatrix) (cfg : Config) :
    (MultiObjectTracker.Initialize k tr sel initial_states ros_image
        camera_matrix false cfg).log =
      tr.log ++ [Op.setBlocks (dependentSamplingBlocks k),
        Op.setSamples initial_states.length, Op.filterStep 0 (zeroInput k),
        Op.resample (usizeOfInt cfg.evaluation_count / cfg.sampling_blocks.length),
        Op.setBlocks cfg.sampling_blocks] ∧
    (MultiObjectTracker.Initialize k tr sel initial_states ros_image
        camera_matrix false cfg).filter_.samples.length =
      usizeOfInt cfg.evaluation_count / cfg.sampling_blocks.length ∧
    (MultiObjectTracker.Initialize k tr sel initial_states ros_image
        camera_matrix false cfg).filter_.blocks = cfg.sampling_blocks := by
  refine ⟨initialize_log_full k tr sel initial_states ros_image camera_matrix
    cfg, ?_, rfl⟩
  simp [MultiObjectTracker.Initialize, SpecFilter.SamplingBlocks,
    SpecFilter.Resample]

theorem stagesUpToChecked_empty (k : Nat) (sel : Nat → Nat → Nat)
    (image : Img) (f1 : SpecFilter k) (b : Nat) (hb : 0 < b) :
    stagesUpToChecked k sel [] image f1 b =
      .error InitFault.emptyPopulation := by
  induction b with
  | zero => omega
  | succ b ih =>
    cases Nat.eq_zero_or_pos b with
    | inl h0 =>
      subst h0
      rfl
    | inr hpos =>
      simp only [stagesUpToChecked, ih hpos]

/-- C10 counterexample: with an empty candidate sequence and two objects, the
checked initialization run — in which the spec's fatal conditions of the
external filter abort the run — faults with the empty-population error at the
very first filter step, in both modes: the staged loop does not go on to
inject into and resample every stage, and the run does not complete. -/
theorem empty_candidates_fault_at_first_stage :
    MultiObjectTracker.InitializeChecked 2 (MultiObjectTracker.new 2 1) selEx
        [] (imgAt 0) camEx true cfgEx2 = .error InitFault.emptyPopulation ∧
    MultiObjectTracker.InitializeChecked 2 (MultiObjectTracker.new 2 1) selEx
        [] (imgAt 0) camEx false cfgEx2 = .error InitFault.emptyPopulation :=
  ⟨rfl, rfl⟩

/-- C10 amended: `Initialize` does not check that the candidate sequence is
non-empty — its own code rejects nothing and builds a size-zero local sample
vector that it hands to the filter (first conjunct: the staged loop's
population at the start of stage 0 is empty).  The filter step on that empty
population is, per the spec, fatal: the run aborts with the empty-population
fault at stage 0 of the staged mode and at the single seeding step of the
full-state mode, so no later stage is ever reached. -/
theorem empty_candidates_unchecked_handoff (k : Nat) (tr : Tracker k)
    (sel : Nat → Nat → Nat) (ros_image : Img) (camera_matrix : CameraMatrix)
    (cfg : Config) :
    (∀ (image : Img) (f1 : SpecFilter k),
      (stagesUpTo k sel [] image f1 0).multi_body_samples = []) ∧
    (0 < k →
      MultiObjectTracker.InitializeChecked k tr sel [] ros_image
        camera_matrix true cfg = .error InitFault.emptyPopulation) ∧
    (MultiObjectTracker.InitializeChecked k tr sel [] ros_image camera_matrix
        false cfg = .error InitFault.emptyPopulation) := by
  refine ⟨fun image f1 => rfl, fun hk => ?_, ?_⟩
  · simp only [MultiObjectTracker.InitializeChecked, if_true,
      stagesUpToChecked_empty k sel _ _ k hk]
  · simp only [MultiObjectTracker.InitializeChecked, Bool.false_eq_true,
      if_false, SpecFilter.SetSamples, SpecFilter.FilterStepChecked,
      List.map_nil]
    simp

/-- Witness for C10's amended claim: with one object, the staged loop's
initial population is empty and the checked staged run aborts with the
empty-population fault. -/
theorem empty_candidates_unchecked_handoff_witness :
    (stagesUpTo 1 selEx [] (imgAt 0)
        { samples := [], blocks := [] } 0).multi_body_samples = [] ∧
    MultiObjectTracker.InitializeChecked 1 (MultiObjectTracker.new 1 1) selEx
        [] (imgAt 0) camEx true cfgEx1 = .error InitFault.emptyPopulation :=
  ⟨(empty_candidates_unchecked_handoff 1 (MultiObjectTracker.new 1 1) selEx
      (imgAt 0) camEx cfgEx1).1 (imgAt 0) { samples := [], blocks := [] },
   (empty_candidates_unchecked_handoff 1 (MultiObjectTracker.new 1 1) selEx
      (imgAt 0) camEx cfgEx1).2.1 Nat.one_pos⟩
